import Mathlib

/-!
Shallow embedding of the friend-request / identity-resolution core of the
mygiphywall repository (src/giphy_db.py and src/giphywall.py).

The SQLite tables are modelled as Lean lists in table (rowid) order:
`DB.users` is the `users` table and `DB.requests` the `friend_requests`
table.  `INTEGER PRIMARY KEY` autoincrement is modelled as max existing
id + 1.  Timestamps (`_now_iso()` values) are opaque strings passed in as
a `now` parameter; nullable columns are `Option String`.  SQL `ORDER BY`
is modelled with `List.insertionSort` (a stable sort, like SQLite's), the
`BINARY` collation with bytewise comparison of the character lists, and
SQLite's ASCII-only `lower()` with an ASCII-only lowercasing map.
-/

/-- Row of the `users` table (src/giphy_db.py, init_db schema). -/
structure User where
  id : Nat
  login_identifier : Option String
  username : Option String
  display_name : Option String
  profile_url : Option String
  email : Option String
  created_at : Option String
  last_login : Option String
deriving DecidableEq

/-- Row of the `friend_requests` table (src/giphy_db.py, init_db schema).
The status column holds the strings "pending", "accepted" or "declined". -/
structure FriendRequest where
  id : Nat
  requester_id : Nat
  receiver_id : Nat
  status : String
  created_at : Option String
  responded_at : Option String
deriving DecidableEq

/-- The persistent store: the two tables the claims are about. -/
structure DB where
  users : List User
  requests : List FriendRequest
deriving DecidableEq

/-- Bytewise comparison of character lists (SQLite BINARY collation). -/
def strLeList : List Char → List Char → Bool
  | [], _ => true
  | _ :: _, [] => false
  | x :: xs, y :: ys => if x = y then strLeList xs ys else decide (x ≤ y)

/-- Bytewise string comparison, as used by SQL `ORDER BY` on TEXT. -/
def strLe (a b : String) : Bool := strLeList a.data b.data

/-- SQL ordering on a nullable TEXT column: NULLs sort first (ascending). -/
def optStrLe : Option String → Option String → Bool
  | none, _ => true
  | some _, none => false
  | some a, some b => strLe a b

/-- SQLite `lower()` lowercases ASCII letters only. -/
def asciiLowerChar (c : Char) : Char :=
  if 'A' ≤ c ∧ c ≤ 'Z' then Char.ofNat (c.toNat + 32) else c

/-- SQLite `lower()` on a string. -/
def asciiLower (s : String) : String := ⟨s.data.map asciiLowerChar⟩

/-- Is this character stripped by Python str.strip()? (ASCII whitespace). -/
def isSpaceChar (c : Char) : Bool := c = ' ' || c = '\t' || c = '\n' || c = '\r'

/-- Python str.strip(): drop whitespace from both ends. -/
def pyStrip (s : String) : String :=
  ⟨((s.data.dropWhile isSpaceChar).reverse.dropWhile isSpaceChar).reverse⟩

/-- SELECT 1 FROM users WHERE id = ? (existence check). -/
def userExists (db : DB) (uid : Nat) : Bool := db.users.any (fun u => u.id = uid)

/-- Autoincrement id for a new friend_requests row (max rowid + 1). -/
def nextRequestId (db : DB) : Nat := (db.requests.foldl (fun m r => max m r.id) 0) + 1

/-- Autoincrement id for a new users row (max rowid + 1). -/
def nextUserId (db : DB) : Nat := (db.users.foldl (fun m u => max m u.id) 0) + 1

/-- WHERE clause of create_friend_request's lookup: the row is between the
unordered pair \x7ba, b\x7d, in either direction (src/giphy_db.py:448-453). -/
def betweenPair (a b : Nat) (r : FriendRequest) : Bool :=
  (r.requester_id = a && r.receiver_id = b) || (r.requester_id = b && r.receiver_id = a)

/-- All friend_requests rows between the unordered pair, in table order. -/
def pairRequests (db : DB) (a b : Nat) : List FriendRequest :=
  db.requests.filter (betweenPair a b)

/-- ORDER BY id DESC + fetchone: the row with the largest id (first such row
on a tie, which cannot occur for a primary key). -/
def maxByIdFirst : List FriendRequest → Option FriendRequest
  | [] => none
  | r :: rest =>
    match maxByIdFirst rest with
    | none => some r
    | some m => if m.id ≤ r.id then some r else some m

/-- The most recent request row between the unordered pair
(src/giphy_db.py:446-455). -/
def mostRecentBetween (db : DB) (a b : Nat) : Option FriendRequest :=
  maxByIdFirst (pairRequests db a b)

/-- UPDATE friend_requests SET status = ?, responded_at = ? WHERE id = ?,
as a per-row function (src/giphy_db.py:464-467 and 528-531). -/
def setRequestStatus (rid : Nat) (status : String) (now : String) (r : FriendRequest) : FriendRequest :=
  if r.id = rid then { r with status := status, responded_at := some now } else r

/-- INSERT INTO friend_requests (..., status, created_at) VALUES (..,'pending',..)
(src/giphy_db.py:471-478). -/
def insertPending (requester_id receiver_id : Nat) (now : String) (db : DB) : DB :=
  { db with
    requests := db.requests ++
      [⟨nextRequestId db, requester_id, receiver_id, "pending", some now, none⟩] }

/-- create_friend_request (src/giphy_db.py:431-487).  Returns the (ok, message)
pair together with the resulting store.  `now` stands for `_now_iso()`. -/
def create_friend_request (requester_id receiver_id : Nat) (now : String) (db : DB) :
    (Bool × String) × DB :=
  if requester_id = 0 ∨ receiver_id = 0 then
    ((false, "Such invalid fren info."), db)
  else if requester_id = receiver_id then
    ((false, "Cannot request own fren-ness, wow."), db)
  else if userExists db receiver_id then
    match mostRecentBetween db requester_id receiver_id with
    | some existing =>
      if existing.status = "accepted" then
        ((false, "Already frens. Much wow."), db)
      else if existing.status = "pending" then
        if existing.requester_id = requester_id then
          ((false, "Friend req already zoomed."), db)
        else
          ((true, "Auto accept! Fren energy mutual."),
           { db with requests := db.requests.map (setRequestStatus existing.id "accepted" now) })
      else
        ((true, "Friend req launched. Very wow."), insertPending requester_id receiver_id now db)
    | none =>
      ((true, "Friend req launched. Very wow."), insertPending requester_id receiver_id now db)
  else
    ((false, "No fren found there, much sad."), db)

/-- respond_to_friend_request (src/giphy_db.py:516-541). -/
def respond_to_friend_request (request_id responder_id : Nat) (accept : Bool) (now : String)
    (db : DB) : (Bool × String) × DB :=
  match db.requests.find? (fun r => r.id = request_id) with
  | none => ((false, "No such fren ping."), db)
  | some req =>
    if req.receiver_id = responder_id then
      if req.status = "pending" then
        ((true, "Fren request updated. Much decision."),
         { db with
           requests := db.requests.map
             (setRequestStatus request_id (if accept then "accepted" else "declined") now) })
      else
        ((false, "Request already handled wow."), db)
    else
      ((false, "No such fren ping."), db)

/-- The subquery of list_friends: receiver ids of accepted rows the user
requested, together with requester ids of accepted rows the user received
(src/giphy_db.py:577-583). -/
def friendIds (db : DB) (uid : Nat) : List Nat :=
  (db.requests.filter (fun r => r.requester_id = uid && r.status = "accepted")).map
      (fun r => r.receiver_id)
    ++ (db.requests.filter (fun r => r.receiver_id = uid && r.status = "accepted")).map
      (fun r => r.requester_id)

/-- ORDER BY COALESCE(u.username, u.email, u.login_identifier). -/
def friendSortKey (u : User) : Option String :=
  u.username.orElse (fun _ => u.email.orElse (fun _ => u.login_identifier))

/-- The list_friends ordering as a relation. -/
def friendOrder (u v : User) : Prop := optStrLe (friendSortKey u) (friendSortKey v) = true

instance : DecidableRel friendOrder :=
  fun u v => inferInstanceAs (Decidable (optStrLe (friendSortKey u) (friendSortKey v) = true))

/-- list_friends (src/giphy_db.py:570-597): users reachable through an
accepted request in either direction, ordered by the coalesced display key. -/
def list_friends (db : DB) (uid : Nat) : List User :=
  List.insertionSort friendOrder
    (db.users.filter (fun u => (friendIds db uid).contains u.id))

/-- ORDER BY created_at ASC, id ASC as a boolean relation. -/
def reqLeAsc (r s : FriendRequest) : Bool :=
  if r.created_at = s.created_at then decide (r.id ≤ s.id)
  else optStrLe r.created_at s.created_at

/-- ORDER BY created_at DESC, id DESC as a boolean relation. -/
def reqLeDesc (r s : FriendRequest) : Bool :=
  if r.created_at = s.created_at then decide (s.id ≤ r.id)
  else optStrLe s.created_at r.created_at

/-- The incoming ordering as a relation. -/
def reqAscRel (r s : FriendRequest) : Prop := reqLeAsc r s = true

instance : DecidableRel reqAscRel :=
  fun r s => inferInstanceAs (Decidable (reqLeAsc r s = true))

/-- The sent ordering as a relation. -/
def reqDescRel (r s : FriendRequest) : Prop := reqLeDesc r s = true

instance : DecidableRel reqDescRel :=
  fun r s => inferInstanceAs (Decidable (reqLeDesc r s = true))

/-- list_pending_friend_requests (src/giphy_db.py:490-513): rows where the
user is receiver and status is pending, inner-joined with `users` on the
requester (a row whose requester id matches no user is dropped by the JOIN),
ordered by created_at ASC, id ASC.  The joined requester_username /
requester_email display columns are not modelled. -/
def list_pending_friend_requests (db : DB) (uid : Nat) : List FriendRequest :=
  List.insertionSort reqAscRel
    (db.requests.filter
      (fun r => r.receiver_id = uid && r.status = "pending" && userExists db r.requester_id))

/-- list_sent_friend_requests (src/giphy_db.py:544-567): rows where the user
is requester and status is pending, inner-joined with `users` on the
receiver, ordered by created_at DESC, id DESC. -/
def list_sent_friend_requests (db : DB) (uid : Nat) : List FriendRequest :=
  List.insertionSort reqDescRel
    (db.requests.filter
      (fun r => r.requester_id = uid && r.status = "pending" && userExists db r.receiver_id))

/-- ORDER BY id ASC + LIMIT 1: the row with the smallest id (first such row
on a tie). -/
def minByIdFirst : List User → Option User
  | [] => none
  | u :: rest =>
    match minByIdFirst rest with
    | none => some u
    | some m => if u.id ≤ m.id then some u else some m

/-- The WHERE clause of find_user_by_identifier: case-insensitive match of
the query against username, email or display name, NULL read as ''
(src/giphy_db.py:231-241). -/
def matchesIdentifier (q : String) (u : User) : Bool :=
  asciiLower (u.username.getD "") = asciiLower q
    || asciiLower (u.email.getD "") = asciiLower q
    || asciiLower (u.display_name.getD "") = asciiLower q

/-- find_user_by_identifier (src/giphy_db.py:223-251): blank queries return
not-found before any lookup; otherwise the matching row with the lowest id. -/
def find_user_by_identifier (db : DB) (identifier : String) : Option User :=
  if pyStrip identifier = "" then none
  else minByIdFirst (db.users.filter (matchesIdentifier (pyStrip identifier)))

/-- get_user_by_username (src/giphy_db.py:185-201): exact match, first row. -/
def get_user_by_username (db : DB) (username : String) : Option User :=
  if username = "" then none
  else db.users.find? (fun u => u.username = some username)

/-- get_user_by_email (src/giphy_db.py:204-220): exact match, first row. -/
def get_user_by_email (db : DB) (email : String) : Option User :=
  if email = "" then none
  else db.users.find? (fun u => u.email = some email)

/-- Python truthiness of an optional string: None and the empty string are
falsy, everything else truthy. -/
def truthyStr : Option String → Bool
  | none => false
  | some s => !(s = "")

/-- Models `(text or "").strip() or None` (src/giphywall.py:300-301). -/
def noneIfBlank (s : String) : Option String :=
  if pyStrip s = "" then none else some (pyStrip s)

/-- Models the `a or b` idiom on an optional string with a string default. -/
def orTruthy (a : Option String) (b : String) : String :=
  match a with
  | some s => if s = "" then b else s
  | none => b

/-- Models the `a or b` idiom on two optional strings. -/
def orTruthyOpt (a b : Option String) : Option String :=
  match a with
  | some s => if s = "" then b else some s
  | none => b

/-- create_user (src/giphy_db.py:122-159).  `fresh` stands for the
`uuid4().hex` fallback.  A UNIQUE violation on the login identifier is
reported by returning the existing row's id without inserting. -/
def create_user (db : DB)
    (login_identifier username display_name profile_url email : Option String)
    (fresh now : String) : Nat × DB :=
  let identifier := orTruthy login_identifier
    (orTruthy username (orTruthy email ("local:" ++ fresh)))
  match db.users.find? (fun u => u.login_identifier = some identifier) with
  | some u => (u.id, db)
  | none =>
    (nextUserId db,
     { db with
       users := db.users ++
         [⟨nextUserId db, some identifier, username, display_name, profile_url, email,
           some now, some now⟩] })

/-- Result of a login form submission: either a conflict warning (no session)
or an established session user (src/giphywall.py:311-366). -/
inductive LoginResult where
  | conflict (msg : String)
  | session (login_identifier : String) (username : Option String) (email : Option String)
      (id : Nat)
deriving DecidableEq

/-- The two independent lookups the login handler performs
(src/giphywall.py:302-309): by username when one was supplied, and by email
when one was supplied. -/
def loginLookups (db : DB) (username_input email_input : String) : Option User × Option User :=
  (match noneIfBlank username_input with
   | some u => get_user_by_username db u
   | none => none,
   match noneIfBlank email_input with
   | some m => get_user_by_email db m
   | none => none)

/-- Models `f"local:{uname or mail or uuid4().hex}"`. -/
def synthLocal (uname mail : Option String) (fresh : String) : String :=
  "local:" ++ orTruthy uname (orTruthy mail fresh)

/-- The first conflict check (src/giphywall.py:311-315): the username lookup
and the email lookup both hit, with different ids. -/
def loginConflictIds (db : DB) (username_input email_input : String) : Bool :=
  match (loginLookups db username_input email_input).1,
      (loginLookups db username_input email_input).2 with
  | some u1, some u2 => !(u1.id = u2.id)
  | _, _ => false

/-- The second conflict check (src/giphywall.py:322): the username-matched
record carries a truthy stored email different from the supplied one. -/
def loginConflictUname (db : DB) (username_input email_input : String) : Bool :=
  match (loginLookups db username_input email_input).1, noneIfBlank email_input with
  | some u1, some m => truthyStr u1.email && !(u1.email = some m)
  | _, _ => false

/-- The third conflict check (src/giphywall.py:323): the email-matched record
carries a truthy stored username different from the supplied one. -/
def loginConflictMail (db : DB) (username_input email_input : String) : Bool :=
  match (loginLookups db username_input email_input).2, noneIfBlank username_input with
  | some u2, some u => truthyStr u2.username && !(u2.username = some u)
  | _, _ => false

/-- The login form submit handler of render_login_screen
(src/giphywall.py:299-366): strip the inputs, run the two lookups, reject on
any of the three identity conflicts without touching the store, otherwise
reuse the matched record or create a new user, and establish the session. -/
def login_submit (db : DB) (username_input email_input : String) (fresh now : String) :
    LoginResult × DB :=
  if loginConflictIds db username_input email_input then
    (.conflict "Such mismatch. Username and email belong to diff accounts.", db)
  else if loginConflictUname db username_input email_input then
    (.conflict "Username tied to other email. Much taken.", db)
  else if loginConflictMail db username_input email_input then
    (.conflict "Email tied to other username. Very claimed.", db)
  else
    match ((loginLookups db username_input email_input).1).orElse
        (fun _ => (loginLookups db username_input email_input).2) with
    | some existing =>
      (.session (orTruthy existing.login_identifier
          (synthLocal (noneIfBlank username_input) (noneIfBlank email_input) fresh))
        (orTruthyOpt existing.username (noneIfBlank username_input))
        (orTruthyOpt existing.email (noneIfBlank email_input))
        existing.id, db)
    | none =>
      (.session (synthLocal (noneIfBlank username_input) (noneIfBlank email_input) fresh)
        (noneIfBlank username_input) (noneIfBlank email_input)
        (create_user db
          (some (synthLocal (noneIfBlank username_input) (noneIfBlank email_input) fresh))
          (noneIfBlank username_input) (noneIfBlank username_input) none
          (noneIfBlank email_input) fresh now).1,
       (create_user db
          (some (synthLocal (noneIfBlank username_input) (noneIfBlank email_input) fresh))
          (noneIfBlank username_input) (noneIfBlank username_input) none
          (noneIfBlank email_input) fresh now).2)

/-- The ids the wall selector offers besides the viewer: friends with a
truthy id, as in `friend_lookup = ... if f.get("id")`
(src/giphywall.py:410). -/
def friendLookupIds (db : DB) (uid : Nat) : List Nat :=
  (list_friends db uid).filterMap (fun f => if f.id = 0 then none else some f.id)

/-- Models `st.session_state.get("active_wall_user_id") or user_id`
(src/giphywall.py:411): a falsy stored selection falls back to the viewer. -/
def activeOrSelf (user_id : Nat) (requested : Option Nat) : Nat :=
  match requested with
  | none => user_id
  | some a => if a = 0 then user_id else a

/-- The active-wall fallback (src/giphywall.py:411-414): a selection that is
neither the viewer nor a friend is replaced by the viewer's own id. -/
def active_wall_resolve (db : DB) (user_id : Nat) (requested : Option Nat) : Nat :=
  if activeOrSelf user_id requested ≠ user_id ∧
      ¬ (friendLookupIds db user_id).contains (activeOrSelf user_id requested) then user_id
  else activeOrSelf user_id requested

/-- The row insertPending appends. -/
def pendingRow (a b : Nat) (now : String) (db : DB) : FriendRequest :=
  ⟨nextRequestId db, a, b, "pending", some now, none⟩

lemma insertPending_requests (a b : Nat) (now : String) (db : DB) :
    (insertPending a b now db).requests = db.requests ++ [pendingRow a b now db] := rfl

lemma insertPending_users (a b : Nat) (now : String) (db : DB) :
    (insertPending a b now db).users = db.users := rfl

lemma userExists_of_mem {db : DB} {u : User} (h : u ∈ db.users) : userExists db u.id = true := by
  simp only [userExists, List.any_eq_true]
  exact ⟨u, h, by simp⟩

lemma betweenPair_symm (a b : Nat) (r : FriendRequest) :
    betweenPair a b r = betweenPair b a r := by
  simp [betweenPair, Bool.or_comm]

lemma pairRequests_symm (db : DB) (a b : Nat) :
    pairRequests db a b = pairRequests db b a := by
  unfold pairRequests
  exact List.filter_congr (fun r _ => betweenPair_symm a b r)

lemma pairRequests_insertPending (a b : Nat) (now : String) (db : DB) :
    pairRequests (insertPending a b now db) a b
      = pairRequests db a b ++ [pendingRow a b now db] := by
  simp [pairRequests, insertPending, List.filter_append, betweenPair, pendingRow]

lemma setRequestStatus_id (rid : Nat) (st now : String) (r : FriendRequest) :
    (setRequestStatus rid st now r).id = r.id := by
  unfold setRequestStatus; split <;> rfl

lemma betweenPair_setRequestStatus (a b rid : Nat) (st now : String) (r : FriendRequest) :
    betweenPair a b (setRequestStatus rid st now r) = betweenPair a b r := by
  unfold setRequestStatus betweenPair; split <;> rfl

lemma pairRequests_map_set (db : DB) (rid : Nat) (st now : String) (a b : Nat) :
    pairRequests { db with requests := db.requests.map (setRequestStatus rid st now) } a b
      = (pairRequests db a b).map (setRequestStatus rid st now) := by
  simp only [pairRequests, List.filter_map]
  congr 1
  exact List.filter_congr (fun r _ => by
    simp [Function.comp, betweenPair_setRequestStatus])

lemma maxByIdFirst_map_set (l : List FriendRequest) (rid : Nat) (st now : String) :
    maxByIdFirst (l.map (setRequestStatus rid st now))
      = (maxByIdFirst l).map (setRequestStatus rid st now) := by
  induction l with
  | nil => rfl
  | cons r rest ih =>
    simp only [List.map_cons, maxByIdFirst, ih]
    cases h : maxByIdFirst rest with
    | none => rfl
    | some m =>
      by_cases hc : m.id ≤ r.id
      · simp only [Option.map, setRequestStatus_id]
        rw [if_pos hc, if_pos hc]
      · simp only [Option.map, setRequestStatus_id]
        rw [if_neg hc, if_neg hc]

lemma mostRecentBetween_map_set (db : DB) (rid : Nat) (st now : String) (a b : Nat) :
    mostRecentBetween { db with requests := db.requests.map (setRequestStatus rid st now) } a b
      = (mostRecentBetween db a b).map (setRequestStatus rid st now) := by
  simp [mostRecentBetween, pairRequests_map_set, maxByIdFirst_map_set]

lemma mostRecent_after_insert {db : DB} {a b : Nat} (now : String)
    (h : pairRequests db a b = []) :
    mostRecentBetween (insertPending a b now db) a b = some (pendingRow a b now db) := by
  simp [mostRecentBetween, pairRequests_insertPending, h, maxByIdFirst]

lemma minByIdFirst_mem : ∀ {l : List User} {u : User}, minByIdFirst l = some u → u ∈ l := by
  intro l
  induction l with
  | nil => intro u h; simp [minByIdFirst] at h
  | cons v rest ih =>
    intro u h
    simp only [minByIdFirst] at h
    cases hr : minByIdFirst rest with
    | none => rw [hr] at h; simp at h; simp [h]
    | some m =>
      rw [hr] at h
      by_cases hc : v.id ≤ m.id
      · simp [hc] at h; simp [h]
      · simp [hc] at h
        exact List.mem_cons_of_mem v (ih (h ▸ hr))

lemma minByIdFirst_none : ∀ {l : List User}, minByIdFirst l = none → l = [] := by
  intro l
  induction l with
  | nil => intro; rfl
  | cons v rest _ =>
    intro h
    simp only [minByIdFirst] at h
    cases hr : minByIdFirst rest <;> rw [hr] at h <;> simp at h
    split at h <;> simp at h

lemma minByIdFirst_min : ∀ {l : List User} {u : User}, minByIdFirst l = some u →
    ∀ v ∈ l, u.id ≤ v.id := by
  intro l
  induction l with
  | nil => intro u h; simp [minByIdFirst] at h
  | cons w rest ih =>
    intro u h v hv
    simp only [minByIdFirst] at h
    cases hr : minByIdFirst rest with
    | none =>
      rw [hr] at h
      simp at h
      subst h
      have hrest := minByIdFirst_none hr
      subst hrest
      simp at hv
      subst hv
      exact Nat.le_refl _
    | some m =>
      rw [hr] at h
      by_cases hc : w.id ≤ m.id
      · simp [hc] at h
        subst h
        rcases List.mem_cons.mp hv with hvw | hvr
        · subst hvw; exact Nat.le_refl _
        · exact Nat.le_trans hc (ih hr v hvr)
      · simp [hc] at h
        subst h
        rcases List.mem_cons.mp hv with hvw | hvr
        · subst hvw; exact Nat.le_of_lt (Nat.lt_of_not_le hc)
        · exact ih hr v hvr

lemma mem_list_friends {db : DB} {uid : Nat} {u : User} :
    u ∈ list_friends db uid ↔ u ∈ db.users ∧ u.id ∈ friendIds db uid := by
  simp [list_friends, List.mem_insertionSort, List.mem_filter, List.elem_iff]

lemma receiver_mem_friendIds {db : DB} {uid : Nat} {r : FriendRequest}
    (hm : r ∈ db.requests) (hs : r.status = "accepted") (hq : r.requester_id = uid) :
    r.receiver_id ∈ friendIds db uid := by
  simp only [friendIds, List.mem_append, List.mem_map, List.mem_filter]
  exact Or.inl ⟨r, ⟨hm, by simp [hq, hs]⟩, rfl⟩

lemma requester_mem_friendIds {db : DB} {uid : Nat} {r : FriendRequest}
    (hm : r ∈ db.requests) (hs : r.status = "accepted") (hq : r.receiver_id = uid) :
    r.requester_id ∈ friendIds db uid := by
  simp only [friendIds, List.mem_append, List.mem_map, List.mem_filter]
  exact Or.inr ⟨r, ⟨hm, by simp [hq, hs]⟩, rfl⟩

lemma create_insert_of_none {db : DB} {a b : Nat} (now : String)
    (ha : a ≠ 0) (hb : b ≠ 0) (hab : a ≠ b) (hex : userExists db b = true)
    (hm : mostRecentBetween db a b = none) :
    create_friend_request a b now db
      = ((true, "Friend req launched. Very wow."), insertPending a b now db) := by
  simp [create_friend_request, ha, hb, hab, hex, hm]

lemma create_insert_of_declined {db : DB} {a b : Nat} {ex : FriendRequest} (now : String)
    (ha : a ≠ 0) (hb : b ≠ 0) (hab : a ≠ b) (hex : userExists db b = true)
    (hm : mostRecentBetween db a b = some ex)
    (h1 : ex.status ≠ "accepted") (h2 : ex.status ≠ "pending") :
    create_friend_request a b now db
      = ((true, "Friend req launched. Very wow."), insertPending a b now db) := by
  simp [create_friend_request, ha, hb, hab, hex, hm, h1, h2]

lemma create_reject_pending_same {db : DB} {a b : Nat} {ex : FriendRequest} (now : String)
    (ha : a ≠ 0) (hb : b ≠ 0) (hab : a ≠ b) (hex : userExists db b = true)
    (hm : mostRecentBetween db a b = some ex)
    (hp : ex.status = "pending") (hq : ex.requester_id = a) :
    create_friend_request a b now db = ((false, "Friend req already zoomed."), db) := by
  simp [create_friend_request, ha, hb, hab, hex, hm, hp, hq]

lemma create_autoaccept {db : DB} {a b : Nat} {ex : FriendRequest} (now : String)
    (ha : a ≠ 0) (hb : b ≠ 0) (hab : a ≠ b) (hex : userExists db b = true)
    (hm : mostRecentBetween db a b = some ex)
    (hp : ex.status = "pending") (hq : ex.requester_id ≠ a) :
    create_friend_request a b now db
      = ((true, "Auto accept! Fren energy mutual."),
         { db with requests := db.requests.map (setRequestStatus ex.id "accepted" now) }) := by
  simp [create_friend_request, ha, hb, hab, hex, hm, hp, hq]

lemma respond_update {db : DB} {rid responder : Nat} {req : FriendRequest}
    (accept : Bool) (now : String)
    (hf : db.requests.find? (fun r => r.id = rid) = some req)
    (hrecv : req.receiver_id = responder) (hp : req.status = "pending") :
    respond_to_friend_request rid responder accept now db
      = ((true, "Fren request updated. Much decision."),
         { db with
           requests :=
             db.requests.map (setRequestStatus rid (if accept then "accepted" else "declined") now) }) := by
  simp [respond_to_friend_request, hf, hrecv, hp]

lemma mostRecentBetween_symm (db : DB) (a b : Nat) :
    mostRecentBetween db a b = mostRecentBetween db b a := by
  unfold mostRecentBetween; rw [pairRequests_symm]

lemma setRequestStatus_self (st now : String) (r : FriendRequest) :
    setRequestStatus r.id st now r = { r with status := st, responded_at := some now } := by
  unfold setRequestStatus; rw [if_pos rfl]

lemma friendLookupIds_ne_zero {db : DB} {uid x : Nat} (h : x ∈ friendLookupIds db uid) :
    x ≠ 0 := by
  simp only [friendLookupIds, List.mem_filterMap] at h
  rcases h with ⟨f, _, hf⟩
  by_cases hz : f.id = 0
  · rw [if_pos hz] at hf; exact absurd hf (by simp)
  · rw [if_neg hz] at hf
    have hfx : f.id = x := Option.some.inj hf
    rw [← hfx]; exact hz

/-- Concrete fixture: two stored users. -/
def alice : User :=
  ⟨1, some "local:alice", some "alice", some "alice", none, some "alice@mail", some "t0", some "t0"⟩

/-- Concrete fixture: second stored user. -/
def bob : User :=
  ⟨2, some "local:bob", some "bob", some "bob", none, some "bob@mail", some "t0", some "t0"⟩

/-- Concrete fixture: two users, no friend requests yet. -/
def dbAB : DB := ⟨[alice, bob], []⟩

/-- Concrete fixture: a pending request from alice to bob. -/
def dbPending : DB := ⟨[alice, bob], [⟨1, 1, 2, "pending", some "t1", none⟩]⟩

/-- Concrete fixture: a declined request from alice to bob. -/
def dbDeclined : DB := ⟨[alice, bob], [⟨1, 1, 2, "declined", some "t1", some "t2"⟩]⟩

/-- C2: No duplicate pending requests: with distinct non-falsy ids, an
existing receiver, and no prior rows between the pair, the first
create_friend_request succeeds and appends exactly one pending row, and a
repeat call in the same direction returns ok = false and leaves the store
untouched. -/
theorem no_duplicate_pending (db : DB) (a b : Nat) (now1 now2 : String)
    (ha : a ≠ 0) (hb : b ≠ 0) (hab : a ≠ b) (hbex : userExists db b = true)
    (hfresh : pairRequests db a b = []) :
    (create_friend_request a b now1 db).1.1 = true ∧
    (create_friend_request a b now1 db).2.requests
      = db.requests ++ [⟨nextRequestId db, a, b, "pending", some now1, none⟩] ∧
    (create_friend_request a b now2 (create_friend_request a b now1 db).2).1.1 = false ∧
    (create_friend_request a b now2 (create_friend_request a b now1 db).2).2
      = (create_friend_request a b now1 db).2 := by
  have hm : mostRecentBetween db a b = none := by
    unfold mostRecentBetween; rw [hfresh]; rfl
  have h1 := create_insert_of_none now1 ha hb hab hbex hm
  rw [h1]
  have hex1 : userExists (insertPending a b now1 db) b = true := hbex
  have hm1 : mostRecentBetween (insertPending a b now1 db) a b
      = some (pendingRow a b now1 db) := mostRecent_after_insert now1 hfresh
  have h2 := create_reject_pending_same now2 ha hb hab hex1 hm1 rfl rfl
  rw [h2]
  exact ⟨rfl, rfl, rfl, rfl⟩

/-- Witness for no_duplicate_pending at a concrete store. -/
theorem no_duplicate_pending_witness :
    (1 : Nat) ≠ 0 ∧ (2 : Nat) ≠ 0 ∧ (1 : Nat) ≠ 2 ∧ userExists dbAB 2 = true ∧
    pairRequests dbAB 1 2 = [] ∧
    ((create_friend_request 1 2 "t1" dbAB).1.1 = true ∧
     (create_friend_request 1 2 "t1" dbAB).2.requests
       = dbAB.requests ++ [⟨nextRequestId dbAB, 1, 2, "pending", some "t1", none⟩] ∧
     (create_friend_request 1 2 "t2" (create_friend_request 1 2 "t1" dbAB).2).1.1 = false ∧
     (create_friend_request 1 2 "t2" (create_friend_request 1 2 "t1" dbAB).2).2
       = (create_friend_request 1 2 "t1" dbAB).2) :=
  ⟨by decide, by decide, by decide, by decide, by decide,
   no_duplicate_pending dbAB 1 2 "t1" "t2" (by decide) (by decide) (by decide)
     (by decide) (by decide)⟩

/-- C3: Terminal states are final: responding to a request whose stored row
is already accepted or declined returns ok = false for every responder and
accept flag, and the store (hence the row) is unchanged. -/
theorem terminal_requests_are_final (db : DB) (rid responder : Nat) (accept : Bool)
    (now : String) (req : FriendRequest)
    (hf : db.requests.find? (fun r => r.id = rid) = some req)
    (hterm : req.status = "accepted" ∨ req.status = "declined") :
    (respond_to_friend_request rid responder accept now db).1.1 = false ∧
    (respond_to_friend_request rid responder accept now db).2 = db := by
  have hnp : req.status ≠ "pending" := by
    rcases hterm with h | h <;> rw [h] <;> decide
  unfold respond_to_friend_request
  rw [hf]
  by_cases hr : req.receiver_id = responder
  · simp [hr, hnp]
  · simp [hr]

/-- Witness for terminal_requests_are_final at a concrete store. -/
theorem terminal_requests_are_final_witness :
    dbDeclined.requests.find? (fun r => r.id = 1)
      = some ⟨1, 1, 2, "declined", some "t1", some "t2"⟩ ∧
    ((respond_to_friend_request 1 2 true "t3" dbDeclined).1.1 = false ∧
     (respond_to_friend_request 1 2 true "t3" dbDeclined).2 = dbDeclined) :=
  ⟨by decide,
   terminal_requests_are_final dbDeclined 1 2 true "t3"
     ⟨1, 1, 2, "declined", some "t1", some "t2"⟩ (by decide) (by decide)⟩

/-- C5: Only the receiver may respond: when no row has the given id, or the
row's receiver differs from the responder, respond_to_friend_request returns
ok = false for every accept flag and the store is unchanged. -/
theorem only_receiver_may_respond (db : DB) (rid responder : Nat) (accept : Bool) (now : String)
    (h : db.requests.find? (fun r => r.id = rid) = none ∨
         ∃ req, db.requests.find? (fun r => r.id = rid) = some req ∧
           req.receiver_id ≠ responder) :
    (respond_to_friend_request rid responder accept now db).1.1 = false ∧
    (respond_to_friend_request rid responder accept now db).2 = db := by
  unfold respond_to_friend_request
  rcases h with h | ⟨req, hf, hr⟩
  · rw [h]; exact ⟨rfl, rfl⟩
  · rw [hf]; simp [hr]

/-- Witness for only_receiver_may_respond at a concrete store. -/
theorem only_receiver_may_respond_witness :
    (dbPending.requests.find? (fun r => r.id = 99) = none ∨
     ∃ req, dbPending.requests.find? (fun r => r.id = 99) = some req ∧
       req.receiver_id ≠ 2) ∧
    ((respond_to_friend_request 99 2 true "t3" dbPending).1.1 = false ∧
     (respond_to_friend_request 99 2 true "t3" dbPending).2 = dbPending) :=
  ⟨Or.inl (by decide),
   only_receiver_may_respond dbPending 99 2 true "t3" (Or.inl (by decide))⟩

/-- C10: Implicit — requester existence is never checked: a non-falsy
requester id with no users row, an existing receiver, and no prior rows
between the pair still yields ok = true and a new pending row whose
requester_id references no user. -/
theorem requester_existence_unchecked (db : DB) (a b : Nat) (now : String)
    (ha : a ≠ 0) (hnx : userExists db a = false) (hb : b ≠ 0)
    (hbex : userExists db b = true) (hfresh : pairRequests db a b = []) :
    (create_friend_request a b now db).1.1 = true ∧
    (create_friend_request a b now db).2.requests
      = db.requests ++ [⟨nextRequestId db, a, b, "pending", some now, none⟩] := by
  have hab : a ≠ b := by
    intro h
    rw [h, hbex] at hnx
    exact absurd hnx (by decide)
  have hm : mostRecentBetween db a b = none := by
    unfold mostRecentBetween; rw [hfresh]; rfl
  rw [create_insert_of_none now ha hb hab hbex hm]
  exact ⟨rfl, rfl⟩

/-- Witness for requester_existence_unchecked at a concrete store: user id 7
does not exist, yet the request row is inserted. -/
theorem requester_existence_unchecked_witness :
    (7 : Nat) ≠ 0 ∧ userExists dbAB 7 = false ∧ (1 : Nat) ≠ 0 ∧
    userExists dbAB 1 = true ∧ pairRequests dbAB 7 1 = [] ∧
    ((create_friend_request 7 1 "t1" dbAB).1.1 = true ∧
     (create_friend_request 7 1 "t1" dbAB).2.requests
       = dbAB.requests ++ [⟨nextRequestId dbAB, 7, 1, "pending", some "t1", none⟩]) :=
  ⟨by decide, by decide, by decide, by decide, by decide,
   requester_existence_unchecked dbAB 7 1 "t1" (by decide) (by decide) (by decide)
     (by decide) (by decide)⟩

/-- C8: Wall selection falls back to self: a requested owner that is neither
the viewer nor in the viewer's friend set resolves to the viewer's own id,
and a requested owner that is the viewer or a friend is accepted as active. -/
theorem wall_fallback_to_self (db : DB) (user_id o : Nat) :
    (o ≠ user_id → (friendLookupIds db user_id).contains o = false →
       active_wall_resolve db user_id (some o) = user_id) ∧
    ((o = user_id ∨ (friendLookupIds db user_id).contains o = true) →
       active_wall_resolve db user_id (some o) = o) := by
  constructor
  · intro hne hnc
    unfold active_wall_resolve activeOrSelf
    by_cases h0 : o = 0
    · simp [h0]
    · simp only [if_neg h0]
      rw [if_pos ⟨hne, by rw [hnc]; exact Bool.false_ne_true⟩]
  · intro h
    unfold active_wall_resolve activeOrSelf
    rcases h with h | h
    · subst h
      by_cases h0 : o = 0 <;> simp [h0]
    · have hmem : o ∈ friendLookupIds db user_id := by
        simpa [List.elem_iff] using h
      have h0 : o ≠ 0 := friendLookupIds_ne_zero hmem
      simp only [if_neg h0]
      rw [if_neg (fun hc => hc.2 h)]

/-- Witness for wall_fallback_to_self at a concrete store: user 2 is not a
friend of user 1, so viewing 2 resolves to 1; viewing 1 itself stays 1. -/
theorem wall_fallback_to_self_witness :
    (2 : Nat) ≠ 1 ∧ (friendLookupIds dbAB 1).contains 2 = false ∧
    active_wall_resolve dbAB 1 (some 2) = 1 ∧
    active_wall_resolve dbAB 1 (some 1) = 1 :=
  ⟨by decide, by decide,
   (wall_fallback_to_self dbAB 1 2).1 (by decide) (by decide),
   (wall_fallback_to_self dbAB 1 1).2 (Or.inl rfl)⟩

/-- C1: Mutual-request auto-accept: starting with no rows between distinct
existing users A and B, create_friend_request(A,B) then
create_friend_request(B,A) both return ok = true, leave exactly one row
between the unordered pair — accepted with a non-null responded_at — and
afterwards list_friends(A) contains B and list_friends(B) contains A. -/
theorem mutual_request_auto_accept (db : DB) (A B : User) (tA tB : String)
    (hA : A ∈ db.users) (hB : B ∈ db.users)
    (hA0 : A.id ≠ 0) (hB0 : B.id ≠ 0) (hAB : A.id ≠ B.id)
    (hfresh : pairRequests db A.id B.id = []) :
    (create_friend_request A.id B.id tA db).1.1 = true ∧
    (create_friend_request B.id A.id tB (create_friend_request A.id B.id tA db).2).1.1 = true ∧
    pairRequests
        (create_friend_request B.id A.id tB (create_friend_request A.id B.id tA db).2).2
        A.id B.id
      = [⟨nextRequestId db, A.id, B.id, "accepted", some tA, some tB⟩] ∧
    B ∈ list_friends
        (create_friend_request B.id A.id tB (create_friend_request A.id B.id tA db).2).2
        A.id ∧
    A ∈ list_friends
        (create_friend_request B.id A.id tB (create_friend_request A.id B.id tA db).2).2
        B.id := by
  have hexB := userExists_of_mem hB
  have hexA := userExists_of_mem hA
  have hm : mostRecentBetween db A.id B.id = none := by
    unfold mostRecentBetween; rw [hfresh]; rfl
  have h1 := create_insert_of_none tA hA0 hB0 hAB hexB hm
  rw [h1]
  have hBA : B.id ≠ A.id := fun h => hAB h.symm
  have hexA1 : userExists (insertPending A.id B.id tA db) A.id = true := hexA
  have hm1 : mostRecentBetween (insertPending A.id B.id tA db) B.id A.id
      = some (pendingRow A.id B.id tA db) := by
    rw [mostRecentBetween_symm]
    exact mostRecent_after_insert tA hfresh
  have hreq : (pendingRow A.id B.id tA db).requester_id ≠ B.id := hAB
  have h2 := create_autoaccept tB hB0 hA0 hBA hexA1 hm1 rfl hreq
  rw [h2]
  refine ⟨rfl, rfl, ?_, ?_, ?_⟩
  · rw [pairRequests_map_set, pairRequests_insertPending, hfresh]
    simp only [List.nil_append, List.map_cons, List.map_nil]
    rw [setRequestStatus_self]
    rfl
  · refine mem_list_friends.mpr ⟨hB, ?_⟩
    have hmem1 : pendingRow A.id B.id tA db ∈ (insertPending A.id B.id tA db).requests := by
      rw [insertPending_requests]
      exact List.mem_append_right _ (by simp)
    have hmem2 := List.mem_map_of_mem
      (setRequestStatus (pendingRow A.id B.id tA db).id "accepted" tB) hmem1
    rw [setRequestStatus_self] at hmem2
    show ({ pendingRow A.id B.id tA db with
            status := "accepted", responded_at := some tB } : FriendRequest).receiver_id
        ∈ friendIds _ A.id
    exact receiver_mem_friendIds hmem2 rfl rfl
  · refine mem_list_friends.mpr ⟨hA, ?_⟩
    have hmem1 : pendingRow A.id B.id tA db ∈ (insertPending A.id B.id tA db).requests := by
      rw [insertPending_requests]
      exact List.mem_append_right _ (by simp)
    have hmem2 := List.mem_map_of_mem
      (setRequestStatus (pendingRow A.id B.id tA db).id "accepted" tB) hmem1
    rw [setRequestStatus_self] at hmem2
    show ({ pendingRow A.id B.id tA db with
            status := "accepted", responded_at := some tB } : FriendRequest).requester_id
        ∈ friendIds _ B.id
    exact requester_mem_friendIds hmem2 rfl rfl

/-- Witness for mutual_request_auto_accept at a concrete store. -/
theorem mutual_request_auto_accept_witness :
    alice ∈ dbAB.users ∧ bob ∈ dbAB.users ∧ alice.id ≠ 0 ∧ bob.id ≠ 0 ∧
    alice.id ≠ bob.id ∧ pairRequests dbAB alice.id bob.id = [] ∧
    ((create_friend_request alice.id bob.id "t1" dbAB).1.1 = true ∧
     (create_friend_request bob.id alice.id "t2"
        (create_friend_request alice.id bob.id "t1" dbAB).2).1.1 = true ∧
     pairRequests
        (create_friend_request bob.id alice.id "t2"
          (create_friend_request alice.id bob.id "t1" dbAB).2).2 alice.id bob.id
       = [⟨nextRequestId dbAB, alice.id, bob.id, "accepted", some "t1", some "t2"⟩] ∧
     bob ∈ list_friends
        (create_friend_request bob.id alice.id "t2"
          (create_friend_request alice.id bob.id "t1" dbAB).2).2 alice.id ∧
     alice ∈ list_friends
        (create_friend_request bob.id alice.id "t2"
          (create_friend_request alice.id bob.id "t1" dbAB).2).2 bob.id) :=
  ⟨by decide, by decide, by decide, by decide, by decide, by decide,
   mutual_request_auto_accept dbAB alice bob "t1" "t2" (by decide) (by decide)
     (by decide) (by decide) (by decide) (by decide)⟩

/-- C4: Decline does not block re-request: declining a pending request (the
most recent row between the pair) succeeds, and a subsequent
create_friend_request between the same pair — in either direction — returns
ok = true and appends a fresh pending row, while the declined row is still
stored unmodified. -/
theorem decline_does_not_block (db : DB) (r : FriendRequest) (now1 now2 : String)
    (hfind : db.requests.find? (fun x => x.id = r.id) = some r)
    (hmost : mostRecentBetween db r.requester_id r.receiver_id = some r)
    (hp : r.status = "pending")
    (ha : r.requester_id ≠ 0) (hb : r.receiver_id ≠ 0)
    (hab : r.requester_id ≠ r.receiver_id)
    (hexa : userExists db r.requester_id = true)
    (hexb : userExists db r.receiver_id = true) :
    (respond_to_friend_request r.id r.receiver_id false now1 db).1.1 = true ∧
    ∀ c d, (c = r.requester_id ∧ d = r.receiver_id) ∨
        (c = r.receiver_id ∧ d = r.requester_id) →
      (create_friend_request c d now2
          (respond_to_friend_request r.id r.receiver_id false now1 db).2).1.1 = true ∧
      (create_friend_request c d now2
          (respond_to_friend_request r.id r.receiver_id false now1 db).2).2.requests
        = (respond_to_friend_request r.id r.receiver_id false now1 db).2.requests
          ++ [⟨nextRequestId (respond_to_friend_request r.id r.receiver_id false now1 db).2,
               c, d, "pending", some now2, none⟩] ∧
      ({ r with status := "declined", responded_at := some now1 } : FriendRequest)
        ∈ (create_friend_request c d now2
            (respond_to_friend_request r.id r.receiver_id false now1 db).2).2.requests := by
  have hresp := respond_update false now1 hfind rfl hp
  have hresp1 : (respond_to_friend_request r.id r.receiver_id false now1 db).1.1 = true := by
    rw [hresp]
  have hresp2 : (respond_to_friend_request r.id r.receiver_id false now1 db).2
      = { db with requests := db.requests.map (setRequestStatus r.id "declined" now1) } := by
    rw [hresp]
    rfl
  rw [hresp2]
  refine ⟨hresp1, ?_⟩
  intro c d hcd
  have hbase : mostRecentBetween
      { db with requests := db.requests.map (setRequestStatus r.id "declined" now1) }
      r.requester_id r.receiver_id
      = some (setRequestStatus r.id "declined" now1 r) := by
    rw [mostRecentBetween_map_set, hmost]; rfl
  have hsd : (setRequestStatus r.id "declined" now1 r).status = "declined" := by
    rw [setRequestStatus_self]
  have hs1 : (setRequestStatus r.id "declined" now1 r).status ≠ "accepted" := by
    rw [hsd]; decide
  have hs2 : (setRequestStatus r.id "declined" now1 r).status ≠ "pending" := by
    rw [hsd]; decide
  have hexa1 : userExists
      { db with requests := db.requests.map (setRequestStatus r.id "declined" now1) }
      r.requester_id = true := hexa
  have hexb1 : userExists
      { db with requests := db.requests.map (setRequestStatus r.id "declined" now1) }
      r.receiver_id = true := hexb
  have hrmem : r ∈ db.requests := List.mem_of_find?_eq_some hfind
  have hdm : setRequestStatus r.id "declined" now1 r
      ∈ db.requests.map (setRequestStatus r.id "declined" now1) :=
    List.mem_map_of_mem _ hrmem
  rw [setRequestStatus_self] at hdm
  rcases hcd with ⟨hc, hd⟩ | ⟨hc, hd⟩
  · subst hc; subst hd
    have h2 := create_insert_of_declined now2 ha hb hab hexb1 hbase hs1 hs2
    rw [h2]
    refine ⟨rfl, rfl, ?_⟩
    rw [insertPending_requests]
    exact List.mem_append_left _ hdm
  · subst hc; subst hd
    have hba : r.receiver_id ≠ r.requester_id := fun h => hab h.symm
    have hm1 : mostRecentBetween
        { db with requests := db.requests.map (setRequestStatus r.id "declined" now1) }
        r.receiver_id r.requester_id
        = some (setRequestStatus r.id "declined" now1 r) := by
      rw [mostRecentBetween_symm]; exact hbase
    have h2 := create_insert_of_declined now2 hb ha hba hexa1 hm1 hs1 hs2
    rw [h2]
    refine ⟨rfl, rfl, ?_⟩
    rw [insertPending_requests]
    exact List.mem_append_left _ hdm

/-- Witness for decline_does_not_block at a concrete store. -/
theorem decline_does_not_block_witness :
    dbPending.requests.find? (fun x => x.id = 1)
      = some ⟨1, 1, 2, "pending", some "t1", none⟩ ∧
    mostRecentBetween dbPending 1 2 = some ⟨1, 1, 2, "pending", some "t1", none⟩ ∧
    ((respond_to_friend_request 1 2 false "t2" dbPending).1.1 = true ∧
     ∀ c d, (c = 1 ∧ d = 2) ∨ (c = 2 ∧ d = 1) →
       (create_friend_request c d "t3"
           (respond_to_friend_request 1 2 false "t2" dbPending).2).1.1 = true ∧
       (create_friend_request c d "t3"
           (respond_to_friend_request 1 2 false "t2" dbPending).2).2.requests
         = (respond_to_friend_request 1 2 false "t2" dbPending).2.requests
           ++ [⟨nextRequestId (respond_to_friend_request 1 2 false "t2" dbPending).2,
                c, d, "pending", some "t3", none⟩] ∧
       (⟨1, 1, 2, "declined", some "t1", some "t2"⟩ : FriendRequest)
         ∈ (create_friend_request c d "t3"
             (respond_to_friend_request 1 2 false "t2" dbPending).2).2.requests) :=
  ⟨by decide, by decide,
   decline_does_not_block dbPending ⟨1, 1, 2, "pending", some "t1", none⟩ "t2" "t3"
     (by decide) (by decide) (by decide) (by decide) (by decide) (by decide)
     (by decide) (by decide)⟩

/-- C7: Identifier resolution: find_user_by_identifier returns not-found for
blank (whitespace-only) input; when it returns a user, that user is a stored
record matching the trimmed input case-insensitively against username, email
or display name and has the lowest id among all matching records; when it
returns not-found on a non-blank query, no stored record matches. -/
theorem identifier_resolution (db : DB) (s : String) (u : User) :
    (pyStrip s = "" → find_user_by_identifier db s = none) ∧
    (find_user_by_identifier db s = some u →
       u ∈ db.users ∧ matchesIdentifier (pyStrip s) u = true ∧
       ∀ v ∈ db.users, matchesIdentifier (pyStrip s) v = true → u.id ≤ v.id) ∧
    (pyStrip s ≠ "" → find_user_by_identifier db s = none →
       ∀ v ∈ db.users, matchesIdentifier (pyStrip s) v = false) := by
  refine ⟨?_, ?_, ?_⟩
  · intro h
    unfold find_user_by_identifier
    rw [if_pos h]
  · intro h
    unfold find_user_by_identifier at h
    by_cases hq : pyStrip s = ""
    · rw [if_pos hq] at h
      exact absurd h (by simp)
    · rw [if_neg hq] at h
      have hmem := minByIdFirst_mem h
      have hmin := minByIdFirst_min h
      rw [List.mem_filter] at hmem
      refine ⟨hmem.1, hmem.2, ?_⟩
      intro v hv hmv
      exact hmin v (List.mem_filter.mpr ⟨hv, hmv⟩)
  · intro hq h
    unfold find_user_by_identifier at h
    rw [if_neg hq] at h
    have hnil := minByIdFirst_none h
    intro v hv
    cases hb : matchesIdentifier (pyStrip s) v
    · rfl
    · have hvf : v ∈ db.users.filter (matchesIdentifier (pyStrip s)) :=
        List.mem_filter.mpr ⟨hv, hb⟩
      rw [hnil] at hvf
      exact absurd hvf (List.not_mem_nil v)

/-- Witness for identifier_resolution at a concrete store: a blank query,
and a query matching alice up to case and surrounding whitespace. -/
theorem identifier_resolution_witness :
    pyStrip "   " = "" ∧ find_user_by_identifier dbAB "   " = none ∧
    find_user_by_identifier dbAB " AlIce " = some alice ∧
    (alice ∈ dbAB.users ∧ matchesIdentifier (pyStrip " AlIce ") alice = true ∧
     ∀ v ∈ dbAB.users, matchesIdentifier (pyStrip " AlIce ") v = true → alice.id ≤ v.id) :=
  ⟨by decide, (identifier_resolution dbAB "   " alice).1 (by decide), by decide,
   (identifier_resolution dbAB " AlIce " alice).2.1 (by decide)⟩

lemma loginConflictIds_of {db : DB} {ui ei : String} {u1 u2 : User}
    (h1 : (loginLookups db ui ei).1 = some u1) (h2 : (loginLookups db ui ei).2 = some u2)
    (hid : u1.id ≠ u2.id) : loginConflictIds db ui ei = true := by
  unfold loginConflictIds
  rw [h1, h2]
  simp [hid]

lemma loginConflictUname_of {db : DB} {ui ei : String} {u1 : User} {m : String}
    (h1 : (loginLookups db ui ei).1 = some u1) (hm : noneIfBlank ei = some m)
    (ht : truthyStr u1.email = true) (hne : u1.email ≠ some m) :
    loginConflictUname db ui ei = true := by
  unfold loginConflictUname
  rw [h1, hm]
  simp [ht, hne]

lemma loginConflictMail_of {db : DB} {ui ei : String} {u2 : User} {un : String}
    (h2 : (loginLookups db ui ei).2 = some u2) (hu : noneIfBlank ui = some un)
    (ht : truthyStr u2.username = true) (hne : u2.username ≠ some un) :
    loginConflictMail db ui ei = true := by
  unfold loginConflictMail
  rw [h2, hu]
  simp [ht, hne]

/-- C6 (amended): Login identity conflict is rejected without mutation: when
the username lookup and the email lookup return records with different ids,
or the username-matched record stores a non-null, non-empty email different
from the supplied one, or the email-matched record stores a non-null,
non-empty username different from the supplied one, the submit handler
reports a conflict, establishes no session, and leaves the store unchanged. -/
theorem login_conflict_rejected (db : DB) (ui ei fresh now : String)
    (h : (∃ u1 u2, (loginLookups db ui ei).1 = some u1 ∧
            (loginLookups db ui ei).2 = some u2 ∧ u1.id ≠ u2.id) ∨
         (∃ u1 m, (loginLookups db ui ei).1 = some u1 ∧ noneIfBlank ei = some m ∧
            truthyStr u1.email = true ∧ u1.email ≠ some m) ∨
         (∃ u2 un, (loginLookups db ui ei).2 = some u2 ∧ noneIfBlank ui = some un ∧
            truthyStr u2.username = true ∧ u2.username ≠ some un)) :
    (∃ msg, (login_submit db ui ei fresh now).1 = LoginResult.conflict msg) ∧
    (login_submit db ui ei fresh now).2 = db := by
  have hb : loginConflictIds db ui ei = true ∨ loginConflictUname db ui ei = true ∨
      loginConflictMail db ui ei = true := by
    rcases h with ⟨u1, u2, h1, h2, hid⟩ | ⟨u1, m, h1, hm, ht, hne⟩ | ⟨u2, un, h2, hu, ht, hne⟩
    · exact Or.inl (loginConflictIds_of h1 h2 hid)
    · exact Or.inr (Or.inl (loginConflictUname_of h1 hm ht hne))
    · exact Or.inr (Or.inr (loginConflictMail_of h2 hu ht hne))
  unfold login_submit
  by_cases c1 : loginConflictIds db ui ei = true
  · rw [if_pos c1]
    exact ⟨⟨_, rfl⟩, rfl⟩
  · rw [if_neg c1]
    by_cases c2 : loginConflictUname db ui ei = true
    · rw [if_pos c2]
      exact ⟨⟨_, rfl⟩, rfl⟩
    · rw [if_neg c2]
      have c3 : loginConflictMail db ui ei = true := by
        rcases hb with hb | hb | hb
        · exact absurd hb c1
        · exact absurd hb c2
        · exact hb
      rw [if_pos c3]
      exact ⟨⟨_, rfl⟩, rfl⟩

/-- Witness for login_conflict_rejected at a concrete store: username
"alice" and email "bob@mail" resolve to different stored ids. -/
theorem login_conflict_rejected_witness :
    (loginLookups dbAB "alice" "bob@mail").1 = some alice ∧
    (loginLookups dbAB "alice" "bob@mail").2 = some bob ∧
    alice.id ≠ bob.id ∧
    ((∃ msg, (login_submit dbAB "alice" "bob@mail" "f" "t9").1 = LoginResult.conflict msg) ∧
     (login_submit dbAB "alice" "bob@mail" "f" "t9").2 = dbAB) :=
  ⟨by decide, by decide, by decide,
   login_conflict_rejected dbAB "alice" "bob@mail" "f" "t9"
     (Or.inl ⟨alice, bob, by decide, by decide, by decide⟩)⟩

/-- Concrete fixture for the C6 counterexample: a stored user whose email
column holds the empty string — non-null in SQL terms, but falsy for the
truthiness test the login handler runs. -/
def amy : User := ⟨1, some "local:amy", some "amy", some "amy", none, some "", some "t0", some "t0"⟩

/-- Concrete fixture: the store holding only amy. -/
def dbAmy : DB := ⟨[amy], []⟩

/-- Counterexample to C6 as stated: the username-matched record amy has a
non-null stored email (the empty string) different from the supplied email
"new@mail", yet the login is not rejected — a session is established for
amy.  The code tests Python truthiness, so an empty-string stored email is
skipped by the conflict check; the claim holds only for non-null, non-empty
stored values. -/
theorem login_conflict_counterexample :
    get_user_by_username dbAmy "amy" = some amy ∧
    amy.email = some "" ∧
    some "" ≠ some "new@mail" ∧
    noneIfBlank "new@mail" = some "new@mail" ∧
    (login_submit dbAmy "amy" "new@mail" "f" "t1").1
      = LoginResult.session "local:amy" (some "amy") (some "new@mail") 1 := by
  refine ⟨by decide, by decide, by decide, by decide, by decide⟩

lemma strLeList_refl : ∀ l : List Char, strLeList l l = true := by
  intro l
  induction l with
  | nil => rfl
  | cons x xs ih => simp [strLeList, ih]

lemma strLeList_total : ∀ a b : List Char, strLeList a b = true ∨ strLeList b a = true := by
  intro a
  induction a with
  | nil => intro b; exact Or.inl rfl
  | cons x xs ih =>
    intro b
    cases b with
    | nil => exact Or.inr rfl
    | cons y ys =>
      by_cases hxy : x = y
      · subst hxy
        simp only [strLeList, if_pos rfl]
        exact ih ys
      · have hyx : ¬ (y = x) := fun h => hxy h.symm
        simp only [strLeList, if_neg hxy, if_neg hyx]
        rcases le_total x y with h | h
        · exact Or.inl (by simpa using h)
        · exact Or.inr (by simpa using h)

lemma strLeList_antisymm : ∀ a b : List Char, strLeList a b = true → strLeList b a = true →
    a = b := by
  intro a
  induction a with
  | nil =>
    intro b _ hba
    cases b with
    | nil => rfl
    | cons y ys => exact absurd hba (by simp [strLeList])
  | cons x xs ih =>
    intro b hab hba
    cases b with
    | nil => exact absurd hab (by simp [strLeList])
    | cons y ys =>
      simp only [strLeList] at hab hba
      by_cases hxy : x = y
      · subst hxy
        rw [if_pos rfl] at hab hba
        rw [ih ys hab hba]
      · have hyx : ¬ (y = x) := fun h => hxy h.symm
        rw [if_neg hxy] at hab
        rw [if_neg hyx] at hba
        have h1 : x ≤ y := by simpa using hab
        have h2 : y ≤ x := by simpa using hba
        exact absurd (le_antisymm h1 h2) hxy

lemma strLeList_trans : ∀ a b c : List Char, strLeList a b = true → strLeList b c = true →
    strLeList a c = true := by
  intro a
  induction a with
  | nil => intro b c _ _; rfl
  | cons x xs ih =>
    intro b c hab hbc
    cases b with
    | nil => exact absurd hab (by simp [strLeList])
    | cons y ys =>
      cases c with
      | nil => exact absurd hbc (by simp [strLeList])
      | cons z zs =>
        simp only [strLeList] at hab hbc ⊢
        by_cases hxy : x = y
        · subst hxy
          rw [if_pos rfl] at hab
          by_cases hyz : x = z
          · subst hyz
            rw [if_pos rfl] at hbc
            rw [if_pos rfl]
            exact ih ys zs hab hbc
          · rw [if_neg hyz] at hbc
            rw [if_neg hyz]
            exact hbc
        · rw [if_neg hxy] at hab
          have hxley : x ≤ y := by simpa using hab
          by_cases hyz : y = z
          · subst hyz
            rw [if_neg hxy]
            simpa using hxley
          · rw [if_neg hyz] at hbc
            have hylez : y ≤ z := by simpa using hbc
            by_cases hxz : x = z
            · subst hxz
              exact absurd (le_antisymm hxley hylez) hxy
            · rw [if_neg hxz]
              simpa using le_trans hxley hylez

lemma optStrLe_refl : ∀ a : Option String, optStrLe a a = true
  | none => rfl
  | some s => strLeList_refl s.data

lemma optStrLe_total : ∀ a b : Option String, optStrLe a b = true ∨ optStrLe b a = true
  | none, _ => Or.inl rfl
  | some _, none => Or.inr rfl
  | some a, some b => strLeList_total a.data b.data

lemma optStrLe_trans : ∀ a b c : Option String, optStrLe a b = true → optStrLe b c = true →
    optStrLe a c = true
  | none, _, _, _, _ => rfl
  | some x, none, _, h, _ => absurd h (by simp [optStrLe])
  | some _, some _, none, _, h => absurd h (by simp [optStrLe])
  | some a, some b, some c, h1, h2 => strLeList_trans a.data b.data c.data h1 h2

lemma optStrLe_antisymm : ∀ a b : Option String, optStrLe a b = true → optStrLe b a = true →
    a = b
  | none, none, _, _ => rfl
  | none, some _, _, h => absurd h (by simp [optStrLe])
  | some _, none, h, _ => absurd h (by simp [optStrLe])
  | some a, some b, h1, h2 =>
    congrArg (fun l => some (String.mk l)) (strLeList_antisymm a.data b.data h1 h2)

lemma reqLeAsc_total (r s : FriendRequest) : reqLeAsc r s = true ∨ reqLeAsc s r = true := by
  unfold reqLeAsc
  by_cases h : r.created_at = s.created_at
  · rw [if_pos h, if_pos h.symm]
    rcases Nat.le_total r.id s.id with h2 | h2
    · exact Or.inl (by simpa using h2)
    · exact Or.inr (by simpa using h2)
  · rw [if_neg h, if_neg (fun hh => h hh.symm)]
    exact optStrLe_total _ _

lemma reqLeAsc_trans (r s t : FriendRequest) (h1 : reqLeAsc r s = true)
    (h2 : reqLeAsc s t = true) : reqLeAsc r t = true := by
  unfold reqLeAsc at h1 h2 ⊢
  by_cases hrs : r.created_at = s.created_at
  · rw [if_pos hrs] at h1
    by_cases hst : s.created_at = t.created_at
    · rw [if_pos hst] at h2
      rw [if_pos (hrs.trans hst)]
      have e1 : r.id ≤ s.id := by simpa using h1
      have e2 : s.id ≤ t.id := by simpa using h2
      simpa using le_trans e1 e2
    · rw [if_neg hst] at h2
      have hrt : r.created_at ≠ t.created_at := fun hh => hst (hrs.symm.trans hh)
      rw [if_neg hrt, hrs]
      exact h2
  · rw [if_neg hrs] at h1
    by_cases hst : s.created_at = t.created_at
    · rw [if_pos hst] at h2
      have hrt : r.created_at ≠ t.created_at := fun hh => hrs (hh.trans hst.symm)
      rw [if_neg hrt, ← hst]
      exact h1
    · rw [if_neg hst] at h2
      by_cases hrt : r.created_at = t.created_at
      · have h2x : optStrLe s.created_at r.created_at = true := by rw [hrt]; exact h2
        exact absurd (optStrLe_antisymm _ _ h1 h2x) hrs
      · rw [if_neg hrt]
        exact optStrLe_trans _ _ _ h1 h2

lemma reqLeDesc_eq (r s : FriendRequest) : reqLeDesc r s = reqLeAsc s r := by
  unfold reqLeAsc reqLeDesc
  by_cases h : r.created_at = s.created_at
  · rw [if_pos h, if_pos h.symm]
  · rw [if_neg h, if_neg (fun hh => h hh.symm)]

instance : IsTotal FriendRequest reqAscRel := ⟨fun a b => reqLeAsc_total a b⟩

instance : IsTrans FriendRequest reqAscRel := ⟨fun a b c => reqLeAsc_trans a b c⟩

instance : IsTotal FriendRequest reqDescRel :=
  ⟨fun a b => by
    unfold reqDescRel
    rw [reqLeDesc_eq, reqLeDesc_eq]
    exact reqLeAsc_total b a⟩

instance : IsTrans FriendRequest reqDescRel :=
  ⟨fun a b c hab hbc => by
    unfold reqDescRel at hab hbc ⊢
    rw [reqLeDesc_eq] at hab hbc ⊢
    exact reqLeAsc_trans c b a hbc hab⟩

lemma reqLeAsc_created {r s : FriendRequest} (h : reqLeAsc r s = true) :
    optStrLe r.created_at s.created_at = true := by
  unfold reqLeAsc at h
  by_cases he : r.created_at = s.created_at
  · rw [he]; exact optStrLe_refl _
  · rwa [if_neg he] at h

lemma reqLeDesc_created {r s : FriendRequest} (h : reqLeDesc r s = true) :
    optStrLe s.created_at r.created_at = true := by
  rw [reqLeDesc_eq] at h
  exact reqLeAsc_created h

/-- Concrete fixture for the C9 counterexample: a pending request whose
requester id 7 matches no stored user. -/
def dbGhost : DB := ⟨[alice], [⟨1, 7, 1, "pending", some "t1", none⟩]⟩

/-- Counterexample to C9 as stated: user 1 is the receiver of a stored
pending request, but the incoming list is empty — the inner JOIN with
`users` drops the row because its requester id 7 matches no user, so the
incoming list does not contain exactly the requests where the user is
receiver and status is pending. -/
theorem pending_lists_counterexample :
    dbGhost.requests.filter (fun r => r.receiver_id = 1 && r.status = "pending")
      = [⟨1, 7, 1, "pending", some "t1", none⟩] ∧
    list_pending_friend_requests dbGhost 1 = [] := by
  refine ⟨by decide, by decide⟩

/-- C9 (amended): Pending-list ordering asymmetry: the incoming list holds
exactly the pending requests where the user is receiver and whose requester
exists as a user (the JOIN drops the rest), in ascending creation-time
order; the sent list holds exactly the pending requests where the user is
requester and whose receiver exists as a user, in descending creation-time
order. -/
theorem pending_lists_ordering (db : DB) (uid : Nat) :
    (list_pending_friend_requests db uid).Perm
      (db.requests.filter
        (fun r => r.receiver_id = uid && r.status = "pending" &&
          userExists db r.requester_id)) ∧
    List.Pairwise (fun r s => optStrLe r.created_at s.created_at = true)
      (list_pending_friend_requests db uid) ∧
    (list_sent_friend_requests db uid).Perm
      (db.requests.filter
        (fun r => r.requester_id = uid && r.status = "pending" &&
          userExists db r.receiver_id)) ∧
    List.Pairwise (fun r s => optStrLe s.created_at r.created_at = true)
      (list_sent_friend_requests db uid) := by
  unfold list_pending_friend_requests list_sent_friend_requests
  refine ⟨List.perm_insertionSort _ _, ?_, List.perm_insertionSort _ _, ?_⟩
  · have hs := List.sorted_insertionSort reqAscRel
      (db.requests.filter
        (fun r => r.receiver_id = uid && r.status = "pending" &&
          userExists db r.requester_id))
    exact List.Pairwise.imp (fun h => reqLeAsc_created h) hs
  · have hs := List.sorted_insertionSort reqDescRel
      (db.requests.filter
        (fun r => r.requester_id = uid && r.status = "pending" &&
          userExists db r.receiver_id))
    exact List.Pairwise.imp (fun h => reqLeDesc_created h) hs
